import Mathlib

/-!
Shallow embedding of the ponip-pickler change-detection and persistence
pipeline (src/main.py, src/data.py) and proofs about its specified
properties.

Modelling conventions:
* A Python dict of parsed page data is an insertion-ordered association
  list `RawData` (string keys, string values), since `parse_html` produces
  only string values.
* `json.dumps(d, ensure_ascii=False)` is modelled character-exactly for
  string-to-string dicts (separators are a comma-space and a colon-space,
  backslash and double quote are escaped); `json.dumps(..., sort_keys=True)`
  additionally sorts the pairs by key.  `json.loads` is modelled by a
  parser for exactly this output format; on any other text it returns
  `none`, standing for the raised ValueError / TypeError.
* SHA-256 (`hashlib.sha256(...).hexdigest()`) is implemented in full over
  `Nat` with 32-bit words represented modulo 2^32.
* The database (SQLite via SQLAlchemy) is a pair of tables kept in
  insertion order: `properties` (class Nekretnina; only its primary key
  column is ever read by the embedded functions, so the other columns are
  omitted) and `sales_info` (class SalesInfo).  Row ids are modelled as
  strings, matching the string values taken from the parsed data.
  An unordered SQL query returning `.first()` is modelled as the head of
  the insertion-ordered list.
* Python-level failures are explicit: `PyErr` enumerates the exceptions
  the embedded code paths can raise.  A function that can raise returns
  `Except PyErr`; when a database write fails, `session.rollback()` is
  modelled by the caller keeping the pre-write state.
* `send_to_telegram` is an external collaborator; dispatching a
  notification is modelled as emitting a structured `Notification` value
  (the constructor arguments are exactly the data interpolated into the
  message string in the source).
-/

set_option linter.unusedVariables false
set_option maxRecDepth 40000

/-! ## Raw records (Python dicts from `parse_html`) -/

/-- A parsed record: insertion-ordered association list modelling a Python
dict with string keys and string values. -/
abbrev RawData := List (String × String)

/-- Python `d[k]` / `d.get(k)`: value at the key, looking up the first matching
pair (a Python dict has at most one). -/
def lookupKey (d : RawData) (k : String) : Option String :=
  match d with
  | [] => none
  | p :: rest => if p.1 = k then some p.2 else lookupKey rest k

/-- Well-formedness of a `RawData` as a Python dict: the keys are distinct. -/
def nodupKeys (d : RawData) : Prop := (d.map Prod.fst).Nodup

instance (d : RawData) : Decidable (nodupKeys d) := by
  unfold nodupKeys; infer_instance

/-! ## JSON serialization (`json.dumps` on string-valued dicts) -/

/-- The `\x7b` character. -/
def lbrace : Char := Char.ofNat 123

/-- The `\x7d` character. -/
def rbrace : Char := Char.ofNat 125

/-- JSON string escaping: `json.dumps` escapes the backslash and the double
quote (with `ensure_ascii=False` all other text characters pass through). -/
def escapeChars : List Char → List Char
  | [] => []
  | c :: cs => (if c = '"' ∨ c = '\\' then ['\\', c] else [c]) ++ escapeChars cs

/-- Serialized form of one key/value pair: `"key": "value"`. -/
def dumpsPairChars (p : String × String) : List Char :=
  '"' :: escapeChars p.1.data ++ '"' :: ':' :: ' ' :: '"' :: escapeChars p.2.data ++ ['"']

/-- Serialized pair list with comma-space separators and the closing brace. -/
def dumpsItemsChars : RawData → List Char
  | [] => [rbrace]
  | [p] => dumpsPairChars p ++ [rbrace]
  | p :: ps => dumpsPairChars p ++ ',' :: ' ' :: dumpsItemsChars ps

/-- Model of `json.dumps(d, ensure_ascii=False)` for a string-valued dict `d`. -/
def jsonDumps (d : RawData) : String :=
  String.mk (lbrace :: dumpsItemsChars d)

/-- Parse a JSON string body after its opening quote; handles the two
escapes `escapeChars` can produce. -/
def parseStrAux : List Char → List Char → Option (String × List Char)
  | [], _ => none
  | c :: rest, acc =>
    if c = '"' then some (String.mk acc.reverse, rest)
    else if c = '\\' then
      match rest with
      | [] => none
      | c2 :: rest2 => parseStrAux rest2 (c2 :: acc)
    else parseStrAux rest (c :: acc)

/-- Parse one `"key": "value"` pair. -/
def parsePair (cs : List Char) : Option ((String × String) × List Char) :=
  match cs with
  | [] => none
  | c :: rest =>
    if c = '"' then
      match parseStrAux rest [] with
      | none => none
      | some (k, rest2) =>
        match rest2 with
        | c1 :: c2 :: c3 :: rest3 =>
          if c1 = ':' ∧ c2 = ' ' ∧ c3 = '"' then
            match parseStrAux rest3 [] with
            | none => none
            | some (v, rest4) => some ((k, v), rest4)
          else none
        | _ => none
    else none

/-- Parse a nonempty pair list up to and including the closing brace.
The fuel argument bounds the number of pairs. -/
def parseItems : Nat → List Char → Option (RawData × List Char)
  | 0, _ => none
  | fuel + 1, cs =>
    match parsePair cs with
    | none => none
    | some (p, rest) =>
      match rest with
      | [] => none
      | c :: rest2 =>
        if c = rbrace then some ([p], rest2)
        else if c = ',' then
          match rest2 with
          | [] => none
          | c2 :: rest3 =>
            if c2 = ' ' then
              match parseItems fuel rest3 with
              | none => none
              | some (ps, rest4) => some (p :: ps, rest4)
            else none
        else none

/-- Model of `json.loads` on the output format of `jsonDumps`; `none` models the
exception raised on any text this embedding never produces. -/
def jsonLoads (s : String) : Option RawData :=
  match s.data with
  | [] => none
  | c :: rest =>
    if c = lbrace then
      match rest with
      | [] => none
      | c2 :: rest2 =>
        if c2 = rbrace then (if rest2 = [] then some [] else none)
        else
          match parseItems rest.length rest with
          | none => none
          | some (ps, rest3) => if rest3 = [] then some ps else none
    else none

/-- Lexicographic comparison of character lists by code point, as Python
compares strings (and hence as `sort_keys=True` orders dict keys). -/
def lexLe : List Char → List Char → Bool
  | [], _ => true
  | _ :: _, [] => false
  | c :: cs, d :: ds =>
    if c.toNat < d.toNat then true
    else if d.toNat < c.toNat then false
    else lexLe cs ds

/-- Comparison of pairs by key, as `sort_keys=True` compares the keys of a
string-keyed dict. -/
def keyLE (p q : String × String) : Prop := lexLe p.1.data q.1.data = true

/-- Strict comparison of pairs by key: at most one pair per key. -/
def keyLT (p q : String × String) : Prop := keyLE p q ∧ p.1 ≠ q.1

instance : DecidableRel keyLE := fun p q => inferInstanceAs (Decidable (_ = true))

theorem lexLe_total (a : List Char) : ∀ b, lexLe a b = true ∨ lexLe b a = true := by
  induction a with
  | nil => intro b; left; rfl
  | cons c cs ih =>
    intro b
    cases b with
    | nil => right; rfl
    | cons d ds =>
      rcases Nat.lt_trichotomy c.toNat d.toNat with h | h | h
      · left; simp [lexLe, h]
      · rcases ih ds with h2 | h2
        · left; simp [lexLe, h, h2]
        · right; simp [lexLe, h.symm, h2]
      · right; simp [lexLe, h]

theorem lexLe_trans (a : List Char) : ∀ b c, lexLe a b = true → lexLe b c = true →
    lexLe a c = true := by
  induction a with
  | nil => intro b c _ _; rfl
  | cons x xs ih =>
    intro b c hab hbc
    cases b with
    | nil => simp [lexLe] at hab
    | cons y ys =>
      cases c with
      | nil => simp [lexLe] at hbc
      | cons z zs =>
        simp only [lexLe] at hab hbc ⊢
        rcases Nat.lt_trichotomy x.toNat y.toNat with h1 | h1 | h1
        · rcases Nat.lt_trichotomy y.toNat z.toNat with h2 | h2 | h2
          · simp [show x.toNat < z.toNat from by omega]
          · simp [show x.toNat < z.toNat from by omega]
          · rw [if_neg (by omega), if_pos (by omega)] at hbc
            exact absurd hbc (by simp)
        · rw [if_neg (by omega), if_neg (by omega)] at hab
          rcases Nat.lt_trichotomy y.toNat z.toNat with h2 | h2 | h2
          · simp [show x.toNat < z.toNat from by omega]
          · rw [if_neg (by omega), if_neg (by omega)] at hbc
            rw [if_neg (by omega), if_neg (by omega)]
            exact ih ys zs hab hbc
          · rw [if_neg (by omega), if_pos (by omega)] at hbc
            exact absurd hbc (by simp)
        · rw [if_neg (by omega), if_pos (by omega)] at hab
          exact absurd hab (by simp)

theorem charToNat_inj {c d : Char} (h : c.toNat = d.toNat) : c = d := by
  have : Char.ofNat c.toNat = Char.ofNat d.toNat := congrArg Char.ofNat h
  rwa [Char.ofNat_toNat, Char.ofNat_toNat] at this

theorem lexLe_antisymm (a : List Char) : ∀ b, lexLe a b = true → lexLe b a = true →
    a = b := by
  induction a with
  | nil =>
    intro b _ hba
    cases b with
    | nil => rfl
    | cons d ds => simp [lexLe] at hba
  | cons c cs ih =>
    intro b hab hba
    cases b with
    | nil => simp [lexLe] at hab
    | cons d ds =>
      simp only [lexLe] at hab hba
      rcases Nat.lt_trichotomy c.toNat d.toNat with h | h | h
      · simp [h, Nat.not_lt.mpr (Nat.le_of_lt h)] at hba
      · have hcd : c = d := charToNat_inj h
        subst hcd
        simp only [Nat.lt_irrefl, if_false] at hab hba
        rw [ih ds hab hba]
      · simp [h, Nat.not_lt.mpr (Nat.le_of_lt h)] at hab

instance : IsTotal (String × String) keyLE := ⟨fun a b => lexLe_total a.1.data b.1.data⟩

instance : IsTrans (String × String) keyLE :=
  ⟨fun a b c h1 h2 => lexLe_trans a.1.data b.1.data c.1.data h1 h2⟩

instance : IsAntisymm (String × String) keyLT :=
  ⟨fun a b h1 h2 => by
    have hdata : a.1.data = b.1.data := lexLe_antisymm a.1.data b.1.data h1.1 h2.1
    have : a.1 = b.1 := by
      cases hfst : a.1
      cases hfst2 : b.1
      simp only [← hfst, ← hfst2] at hdata ⊢
      rw [show a.1 = String.mk a.1.data from rfl, show b.1 = String.mk b.1.data from rfl, hdata]
    exact absurd this h1.2⟩

/-- Key order produced by `sort_keys=True`: sort the pairs by their key. -/
def sortPairs (d : RawData) : RawData :=
  List.insertionSort keyLE d

/-- Model of `json.dumps(d, ensure_ascii=False, sort_keys=True)`. -/
def jsonDumpsSorted (d : RawData) : String :=
  jsonDumps (sortPairs d)

/-! ## SHA-256 (`hashlib.sha256(...).hexdigest()`), over `Nat` -/

/-- Truncation to a 32-bit word. -/
def w32 (n : Nat) : Nat := n % 4294967296

/-- Right rotation of a 32-bit word. -/
def rotr32 (k x : Nat) : Nat := (x / 2 ^ k) + (x % 2 ^ k) * 2 ^ (32 - k)

/-- Right shift of a 32-bit word. -/
def shr32 (k x : Nat) : Nat := x / 2 ^ k

/-- The Σ0 compression function. -/
def bigS0 (x : Nat) : Nat := (rotr32 2 x) ^^^ (rotr32 13 x) ^^^ (rotr32 22 x)

/-- The Σ1 compression function. -/
def bigS1 (x : Nat) : Nat := (rotr32 6 x) ^^^ (rotr32 11 x) ^^^ (rotr32 25 x)

/-- The σ0 message-schedule function. -/
def smallS0 (x : Nat) : Nat := (rotr32 7 x) ^^^ (rotr32 18 x) ^^^ (shr32 3 x)

/-- The σ1 message-schedule function. -/
def smallS1 (x : Nat) : Nat := (rotr32 17 x) ^^^ (rotr32 19 x) ^^^ (shr32 10 x)

/-- The Ch function. -/
def chf (x y z : Nat) : Nat := (x &&& y) ^^^ ((x ^^^ 4294967295) &&& z)

/-- The Maj function. -/
def majf (x y z : Nat) : Nat := (x &&& y) ^^^ (x &&& z) ^^^ (y &&& z)

/-- The 64 SHA-256 round constants. -/
def shaK : List Nat :=
  [1116352408, 1899447441, 3049323471, 3921009573, 961987163,
   1508970993, 2453635748, 2870763221, 3624381080, 310598401,
   607225278, 1426881987, 1925078388, 2162078206, 2614888103,
   3248222580, 3835390401, 4022224774, 264347078, 604807628,
   770255983, 1249150122, 1555081692, 1996064986, 2554220882,
   2821834349, 2952996808, 3210313671, 3336571891, 3584528711,
   113926993, 338241895, 666307205, 773529912, 1294757372,
   1396182291, 1695183700, 1986661051, 2177026350, 2456956037,
   2730485921, 2820302411, 3259730800, 3345764771, 3516065817,
   3600352804, 4094571909, 275423344, 430227734, 506948616,
   659060556, 883997877, 958139571, 1322822218, 1537002063,
   1747873779, 1955562222, 2024104815, 2227730452, 2361852424,
   2428436474, 2756734187, 3204031479, 3329325298]

/-- The eight 32-bit words of a SHA-256 state. -/
structure Hash8 where
  a : Nat
  b : Nat
  c : Nat
  d : Nat
  e : Nat
  f : Nat
  g : Nat
  h : Nat
deriving DecidableEq

/-- The SHA-256 initial state. -/
def shaInit : Hash8 :=
  { a := 1779033703, b := 3144134277, c := 1013904242, d := 2773480762,
    e := 1359893119, f := 2600822924, g := 528734635, h := 1541459225 }

/-- The message length in bits, as 8 big-endian bytes. -/
def lenBytes (n : Nat) : List Nat :=
  [n / 2 ^ 56 % 256, n / 2 ^ 48 % 256, n / 2 ^ 40 % 256, n / 2 ^ 32 % 256,
   n / 2 ^ 24 % 256, n / 2 ^ 16 % 256, n / 2 ^ 8 % 256, n % 256]

/-- SHA-256 message padding to a multiple of 64 bytes. -/
def padMessage (msg : List Nat) : List Nat :=
  let L := msg.length
  msg ++ 128 :: List.replicate ((119 - L % 64) % 64) 0 ++ lenBytes (8 * L)

/-- Group bytes into big-endian 32-bit words. -/
def bytesToWords : List Nat → List Nat
  | a :: b :: c :: d :: rest => (((a * 256 + b) * 256 + c) * 256 + d) :: bytesToWords rest
  | _ => []

/-- Extend the 16 block words to the 64-entry message schedule. -/
def extendSchedule : Nat → List Nat → List Nat
  | 0, ws => ws
  | k + 1, ws =>
    let i := ws.length
    let nw := w32 (smallS1 (ws.getD (i - 2) 0) + ws.getD (i - 7) 0 +
                   smallS0 (ws.getD (i - 15) 0) + ws.getD (i - 16) 0)
    extendSchedule k (ws ++ [nw])

/-- One SHA-256 round. -/
def roundStep (st : Hash8) (kw : Nat × Nat) : Hash8 :=
  let t1 := w32 (st.h + bigS1 st.e + chf st.e st.f st.g + kw.1 + kw.2)
  let t2 := w32 (bigS0 st.a + majf st.a st.b st.c)
  { a := w32 (t1 + t2), b := st.a, c := st.b, d := st.c,
    e := w32 (st.d + t1), f := st.e, g := st.f, h := st.g }

/-- Compress one 64-byte block into the state. -/
def compressBlock (h0 : Hash8) (block : List Nat) : Hash8 :=
  let ws := extendSchedule 48 (bytesToWords block)
  let st := (shaK.zip ws).foldl roundStep h0
  { a := w32 (h0.a + st.a), b := w32 (h0.b + st.b), c := w32 (h0.c + st.c),
    d := w32 (h0.d + st.d), e := w32 (h0.e + st.e), f := w32 (h0.f + st.f),
    g := w32 (h0.g + st.g), h := w32 (h0.h + st.h) }

/-- Fold the compression over all 64-byte blocks (the fuel bounds the
number of blocks; the padded message length always suffices). -/
def processBlocks : Nat → Hash8 → List Nat → Hash8
  | 0, h, _ => h
  | _ + 1, h, [] => h
  | fuel + 1, h, bytes => processBlocks fuel (compressBlock h (bytes.take 64)) (bytes.drop 64)

/-- SHA-256 of a byte list. -/
def sha256Bytes (msg : List Nat) : Hash8 :=
  let padded := padMessage msg
  processBlocks padded.length shaInit padded

/-- UTF-8 encoding of one character. -/
def utf8Char (c : Char) : List Nat :=
  let n := c.toNat
  if n < 128 then [n]
  else if n < 2048 then [192 + n / 64, 128 + n % 64]
  else if n < 65536 then [224 + n / 4096, 128 + (n / 64) % 64, 128 + n % 64]
  else [240 + n / 262144, 128 + (n / 4096) % 64, 128 + (n / 64) % 64, 128 + n % 64]

/-- UTF-8 encoding of a character list (`.encode(utf-8)` in the source). -/
def utf8Encode : List Char → List Nat
  | [] => []
  | c :: cs => utf8Char c ++ utf8Encode cs

/-- Lower-case hex digit for a value below 16. -/
def hexChar (n : Nat) : Char := Char.ofNat (if n < 10 then 48 + n else 87 + n)

/-- Exactly `k` hex digits of `n`, most significant first. -/
def hexDigits : Nat → Nat → List Char
  | 0, _ => []
  | k + 1, n => hexDigits k (n / 16) ++ [hexChar (n % 16)]

/-- Eight hex digits of a 32-bit word. -/
def wordHex (n : Nat) : List Char := hexDigits 8 n

/-- Model of `hashlib.sha256(s.encode(utf-8)).hexdigest()`. -/
def sha256Hex (s : String) : String :=
  let st := sha256Bytes (utf8Encode s.data)
  String.mk (wordHex st.a ++ wordHex st.b ++ wordHex st.c ++ wordHex st.d ++
             wordHex st.e ++ wordHex st.f ++ wordHex st.g ++ wordHex st.h)

/-- Embedding of `hash_data` (src/main.py, lines 35-37): hex SHA-256 digest of the
key-sorted JSON serialization of the parsed record. -/
def hash_data (json_input : RawData) : String :=
  sha256Hex (jsonDumpsSorted json_input)

/-! ## Data model (src/data.py) and database state -/

/-- A row of the `properties` table (class Nekretnina).  Only the primary
key column `id` is ever read by the embedded functions, so the remaining
columns are omitted.  Ids are modelled as the strings taken from the
parsed data (SQLite coerces numeric strings when comparing with the
integer column). -/
structure Nekretnina where
  id : String
deriving DecidableEq

/-- A row of the `sales_info` table (class SalesInfo, src/data.py lines
38-47).  The projected value columns hold whatever `data.get(...)`
returned, which for parsed records is a string or `None`. -/
structure SalesInfo where
  id : String
  iznos_najvise_ponude : Option String
  status_nadmetanja : Option String
  broj_uplatitelja : Option String
  data_hash : String
  json_data : String
deriving DecidableEq

/-- The committed database state: the two tables in insertion order. -/
structure DB where
  properties : List Nekretnina
  sales : List SalesInfo
deriving DecidableEq

/-- The Python exceptions the embedded code paths can raise. -/
inductive PyErr where
  | keyError
  | attributeError
  | typeError
  | valueError
  | integrityError
  | requestError
  | parseError
deriving DecidableEq

deriving instance DecidableEq for Except

/-- The dict returned by `read_sales_info` (its `json_data` entry is the
deserialized record). -/
structure ReadRecord where
  id : String
  iznos_najvise_ponude : Option String
  status_nadmetanja : Option String
  broj_uplatitelja : Option String
  data_hash : String
  json_data : RawData
deriving DecidableEq

/-- A dispatched Telegram message, by the data interpolated into it:
`newEntry id` is the new-entry message for that id, `changesDetected id
old new` is the changes message for that id (its text renders the
DeepDiff of `old` and `new`), `noIdFound` is the missing-identity
warning for a URL. -/
inductive Notification where
  | newEntry (id : String)
  | changesDetected (id : String) (old : RawData) (new : RawData)
  | noIdFound
deriving DecidableEq

/-- Per-URL outcome of one iteration of `process_urls`. -/
inductive Outcome where
  | processed
  | skippedNoId
  | errorCaught (e : PyErr)
deriving DecidableEq

/-! ## Persistence operations (src/main.py) -/

/-- Embedding of `commit_session` (lines 78-84) together with the flush of the pending
`session.add(new_record)`: the insert commits unless the primary key is
already present in `sales_info` (the commit then raises IntegrityError
and `session.rollback()` restores the pre-write state, so the caller
keeps its old `DB`). -/
def commit_session (db : DB) (new_record : SalesInfo) : Except PyErr DB :=
  if db.sales.any (fun r => r.id = new_record.id) then
    Except.error PyErr.integrityError
  else
    Except.ok { db with sales := db.sales ++ [new_record] }

/-- Embedding of `write_sales_info` (lines 87-114).  Computes the hash and the
serialization, then checks for an existing record — in the `properties`
table (`session.query(Nekretnina)`), not in `sales_info`.  When a
Nekretnina row with that id exists, the update branch calls
`update_if_changed(existing_record, "iznos_najvise_ponude", ...)`, whose
`getattr` raises AttributeError because class Nekretnina has no such
attribute; nothing has been flushed yet, so the state is unchanged.
Otherwise a new SalesInfo row is added — without `status_nadmetanja`,
which the constructor call omits — and committed. -/
def write_sales_info (db : DB) (data : RawData) : Except PyErr DB :=
  let data_hash := hash_data data
  let json_data := jsonDumps data
  match lookupKey data "ID nadmetanja" with
  | none => Except.error PyErr.keyError
  | some idv =>
    if db.properties.any (fun n => n.id = idv) then
      Except.error PyErr.attributeError
    else
      commit_session db
        { id := idv,
          iznos_najvise_ponude := lookupKey data "iznos_najvise_ponude",
          status_nadmetanja := none,
          broj_uplatitelja := lookupKey data "broj_uplatitelja",
          data_hash := data_hash,
          json_data := json_data }

/-- Embedding of `read_sales_info` (lines 117-160).  The active query outer-joins
`properties` with `sales_info` and takes `.first()` with no filter: the
`id_nadmetanja` argument is never used.  The debug print then accesses
`record.id`, raising AttributeError when the join is empty, before the
`if record:` test can return None.  When the first property row has no
matching sales row, the joined columns are NULL and
`json.loads(record.json_data)` raises TypeError; malformed stored text
raises ValueError. -/
def read_sales_info (db : DB) (id_nadmetanja : String) : Except PyErr (Option ReadRecord) :=
  match db.properties.head? with
  | none => Except.error PyErr.attributeError
  | some nek =>
    match db.sales.find? (fun r => r.id = nek.id) with
    | none => Except.error PyErr.typeError
    | some s =>
      match jsonLoads s.json_data with
      | none => Except.error PyErr.valueError
      | some m =>
        Except.ok (some
          { id := nek.id,
            iznos_najvise_ponude := s.iznos_najvise_ponude,
            status_nadmetanja := s.status_nadmetanja,
            broj_uplatitelja := s.broj_uplatitelja,
            data_hash := s.data_hash,
            json_data := m })

/-- Embedding of `compare_and_notify_sales` (lines 163-190).  Returns the dispatched
notifications, the resulting committed state, and the exception
propagated to the caller, if any.  On every raising path the state
component is the pre-call state (nothing was committed, or the commit
rolled back). -/
def compare_and_notify_sales (db : DB) (new_data : RawData) :
    List Notification × DB × Option PyErr :=
  match lookupKey new_data "ID nadmetanja" with
  | none => ([], db, some PyErr.keyError)
  | some idv =>
    match read_sales_info db idv with
    | Except.error e => ([], db, some e)
    | Except.ok (some existing_data) =>
      if existing_data.data_hash ≠ hash_data new_data then
        let note := Notification.changesDetected idv existing_data.json_data new_data
        match write_sales_info db new_data with
        | Except.ok db2 => ([note], db2, none)
        | Except.error e => ([note], db, some e)
      else ([], db, none)
    | Except.ok none =>
      let note := Notification.newEntry idv
      match write_sales_info db new_data with
      | Except.ok db2 => ([note], db2, none)
      | Except.error e => ([note], db, some e)

/-- One iteration of the `process_urls` loop (lines 193-215) for one URL.
The input is the outcome of the external `get_html`/`parse_html` steps
for that URL.  The surrounding try/except catches every exception and the
loop moves on. -/
def processOne (db : DB) (input : Except PyErr RawData) :
    Outcome × List Notification × DB :=
  match input with
  | Except.error e => (Outcome.errorCaught e, [], db)
  | Except.ok data =>
    match lookupKey data "ID nadmetanja" with
    | none => (Outcome.skippedNoId, [Notification.noIdFound], db)
    | some _ =>
      match compare_and_notify_sales db data with
      | (ns, db2, none) => (Outcome.processed, ns, db2)
      | (ns, db2, some e) => (Outcome.errorCaught e, ns, db2)

/-- Embedding of `process_urls` (lines 193-215): fold `processOne` over the tracked
URL list, collecting per-URL outcomes and all dispatched notifications. -/
def process_urls (db : DB) (inputs : List (Except PyErr RawData)) :
    List Outcome × List Notification × DB :=
  match inputs with
  | [] => ([], [], db)
  | i :: rest =>
    let r1 := processOne db i
    let r2 := process_urls r1.2.2 rest
    (r1.1 :: r2.1, r1.2.1 ++ r2.2.1, r2.2.2)

/-- The committed state after a call to `write_sales_info` (on failure the
rollback keeps the previous state). -/
def write_state (db : DB) (data : RawData) : DB :=
  match write_sales_info db data with
  | Except.ok db2 => db2
  | Except.error _ => db

/-- The coherence invariant of one stored row: its `json_data` text
deserializes, and hashing the deserialized mapping gives its
`data_hash`. -/
def rowCoherent (r : SalesInfo) : Prop :=
  ∃ m, jsonLoads r.json_data = some m ∧ hash_data m = r.data_hash

/-! ## Concrete states used in the claim theorems and witnesses -/

/-- Concrete record for the C9 witness. -/
def c9Data : RawData := [("ID nadmetanja", "X1")]

/-- The row the C9 witness write stores. -/
def c9Row : SalesInfo :=
  { id := "X1",
    iznos_najvise_ponude := lookupKey c9Data "iznos_najvise_ponude",
    status_nadmetanja := none,
    broj_uplatitelja := lookupKey c9Data "broj_uplatitelja",
    data_hash := hash_data c9Data,
    json_data := jsonDumps c9Data }

/-- Fresh record processed in the C3 scenario. -/
def c3New : RawData := [("ID nadmetanja", "X1")]

/-- First (and unrelated) row of the C3 store. -/
def c3RowA : SalesInfo :=
  { id := "A", iznos_najvise_ponude := none, status_nadmetanja := none,
    broj_uplatitelja := none, data_hash := "", json_data := jsonDumps [] }

/-- Existing sales row for the C3 entity. -/
def c3RowX1 : SalesInfo :=
  { id := "X1", iznos_najvise_ponude := none, status_nadmetanja := none,
    broj_uplatitelja := none, data_hash := "stale", json_data := jsonDumps [] }

/-- The C3 store state. -/
def c3DB : DB := { properties := [{ id := "A" }], sales := [c3RowA, c3RowX1] }

/-- What `read_sales_info` hands the C3 comparison: the first joined row. -/
def c3Ex : ReadRecord :=
  { id := "A", iznos_najvise_ponude := none, status_nadmetanja := none,
    broj_uplatitelja := none, data_hash := "", json_data := [] }

/-- Fresh record processed in the C4 scenario. -/
def c4New : RawData := [("ID nadmetanja", "X2"), ("Status", "OPEN")]

/-- First (and unrelated) row of the C4 store. -/
def c4RowA : SalesInfo :=
  { id := "A", iznos_najvise_ponude := none, status_nadmetanja := none,
    broj_uplatitelja := none, data_hash := "", json_data := jsonDumps [] }

/-- Sales row for the C4 entity: its stored fingerprint equals the hash of
the newly observed record. -/
def c4RowX2 : SalesInfo :=
  { id := "X2", iznos_najvise_ponude := none, status_nadmetanja := none,
    broj_uplatitelja := none, data_hash := hash_data c4New, json_data := jsonDumps c4New }

/-- The C4 store state. -/
def c4DB : DB := { properties := [{ id := "A" }], sales := [c4RowA, c4RowX2] }

/-- Record written in the C10 scenario (no status key). -/
def c10Data : RawData := [("ID nadmetanja", "X1")]

/-- Pre-existing sales row for the C10 entity, with unset status. -/
def c10Row : SalesInfo :=
  { id := "X1", iznos_najvise_ponude := none, status_nadmetanja := none,
    broj_uplatitelja := none, data_hash := "h", json_data := jsonDumps [] }

/-- The C10 store state: the entity exists in both tables, so the update
branch is taken. -/
def c10DB : DB := { properties := [{ id := "X1" }], sales := [c10Row] }

/-! ## Serialization round trip -/

/-- Parsing after the opening quote inverts escaping: the parser consumes
the escaped body and the closing quote. -/
theorem parseStrAux_escape (s : List Char) : ∀ (acc rest : List Char),
    parseStrAux (escapeChars s ++ '"' :: rest) acc =
      some (String.mk (acc.reverse ++ s), rest) := by
  induction s with
  | nil =>
    intro acc rest
    rw [escapeChars, List.nil_append, parseStrAux.eq_def]
    simp
  | cons c cs ih =>
    intro acc rest
    by_cases hc : c = '"' ∨ c = '\\'
    · rw [escapeChars, if_pos hc]
      simp only [List.cons_append, List.nil_append]
      rw [parseStrAux.eq_def]
      simp only [show (('\\' : Char) = '"') = False from by simp, if_false, if_pos rfl]
      rw [ih (c :: acc) rest]
      simp
    · push_neg at hc
      rw [escapeChars, if_neg (show ¬(c = '"' ∨ c = '\\') from by tauto)]
      simp only [List.cons_append, List.nil_append]
      rw [parseStrAux.eq_def]
      simp only [if_neg hc.1, if_neg hc.2]
      rw [ih (c :: acc) rest]
      simp

/-- Parsing inverts the serialization of one pair. -/
theorem parsePair_dumps (p : String × String) (rest : List Char) :
    parsePair (dumpsPairChars p ++ rest) = some (p, rest) := by
  obtain ⟨k, v⟩ := p
  rw [dumpsPairChars]
  simp only [List.cons_append, List.append_assoc, List.singleton_append]
  simp [parsePair, parseStrAux_escape]

/-- Parsing inverts the serialization of a nonempty pair list, consuming
the closing brace, for any sufficient fuel. -/
theorem parseItems_dumps (d : RawData) :
    ∀ fuel : Nat, d ≠ [] → d.length ≤ fuel →
      parseItems fuel (dumpsItemsChars d) = some (d, []) := by
  induction d with
  | nil => intro fuel h _; exact absurd rfl h
  | cons p tail ih =>
    intro fuel _ hlen
    cases fuel with
    | zero => simp at hlen
    | succ f =>
      cases tail with
      | nil =>
        rw [dumpsItemsChars, parseItems, parsePair_dumps]
        simp [show ¬(rbrace = ',') from by decide]
      | cons q ps =>
        rw [show dumpsItemsChars (p :: q :: ps) =
              dumpsPairChars p ++ ',' :: ' ' :: dumpsItemsChars (q :: ps) from rfl,
          parseItems, parsePair_dumps]
        have hr : parseItems f (dumpsItemsChars (q :: ps)) = some (q :: ps, []) := by
          apply ih f (List.cons_ne_nil q ps)
          simp only [List.length_cons] at hlen ⊢
          omega
        simp [show ¬((',' : Char) = rbrace) from by decide, hr]

/-- The serialization of a pair list is at least as long as the list. -/
theorem dumpsItemsChars_length (d : RawData) :
    d.length ≤ (dumpsItemsChars d).length := by
  induction d with
  | nil => simp [dumpsItemsChars]
  | cons p tail ih =>
    cases tail with
    | nil => simp [dumpsItemsChars]
    | cons q ps =>
      rw [show dumpsItemsChars (p :: q :: ps) =
            dumpsPairChars p ++ ',' :: ' ' :: dumpsItemsChars (q :: ps) from rfl]
      simp only [List.length_append, List.length_cons] at ih ⊢
      omega

/-- Deserialization inverts serialization: `json.loads` of `json.dumps`, deserializing the serialized dict
gives back the dict. -/
theorem jsonLoads_jsonDumps (d : RawData) : jsonLoads (jsonDumps d) = some d := by
  cases d with
  | nil => decide
  | cons p tail =>
    obtain ⟨t, ht⟩ : ∃ t, dumpsItemsChars (p :: tail) = '"' :: t := by
      cases tail with
      | nil => exact ⟨_, rfl⟩
      | cons q ps => exact ⟨_, rfl⟩
    have hlen : (p :: tail).length ≤ (dumpsItemsChars (p :: tail)).length :=
      dumpsItemsChars_length (p :: tail)
    have hitems : parseItems (dumpsItemsChars (p :: tail)).length (dumpsItemsChars (p :: tail)) =
        some (p :: tail, []) :=
      parseItems_dumps (p :: tail) _ (List.cons_ne_nil p tail) hlen
    rw [jsonDumps]
    show jsonLoads (String.mk (lbrace :: dumpsItemsChars (p :: tail))) = _
    rw [jsonLoads]
    simp only [ht, if_pos rfl, show ('"' : Char) = rbrace ↔ False from by decide]
    rw [← ht, hitems]
    simp

/-! ## Key-sorted serialization is insertion-order independent -/

/-- Pairwise non-strict key order plus distinct keys gives strict order. -/
theorem pairwise_keyLT_of_keyLE {l : List (String × String)}
    (hle : List.Pairwise keyLE l)
    (hne : List.Pairwise (fun p q : String × String => p.1 ≠ q.1) l) :
    List.Pairwise keyLT l := by
  induction l with
  | nil => exact List.Pairwise.nil
  | cons a t ih =>
    rcases List.pairwise_cons.mp hle with ⟨h1, h2⟩
    rcases List.pairwise_cons.mp hne with ⟨h3, h4⟩
    exact List.pairwise_cons.mpr
      ⟨fun b hb => ⟨h1 b hb, h3 b hb⟩, ih h2 h4⟩

/-- Two dicts that are permutations of each other with distinct keys have
the same key-sorted pair list. -/
theorem sortPairs_eq_of_perm (d1 d2 : RawData) (hp : d1.Perm d2) (hnd : nodupKeys d1) :
    sortPairs d1 = sortPairs d2 := by
  simp only [sortPairs]
  have hperm : (List.insertionSort keyLE d1).Perm (List.insertionSort keyLE d2) :=
    ((List.perm_insertionSort keyLE d1).trans hp).trans
      (List.perm_insertionSort keyLE d2).symm
  have hnd1 : ((List.insertionSort keyLE d1).map Prod.fst).Nodup :=
    (((List.perm_insertionSort keyLE d1).map Prod.fst).nodup_iff).mpr hnd
  have hnd2 : ((List.insertionSort keyLE d2).map Prod.fst).Nodup :=
    ((hperm.map Prod.fst).nodup_iff).mp hnd1
  exact List.eq_of_perm_of_sorted hperm
    (pairwise_keyLT_of_keyLE (List.sorted_insertionSort keyLE d1)
      (List.pairwise_map.mp hnd1))
    (pairwise_keyLT_of_keyLE (List.sorted_insertionSort keyLE d2)
      (List.pairwise_map.mp hnd2))

/-! ## Pass structure lemmas -/

/-- Every entry of the URL list yields exactly one outcome: the loop never
stops early. -/
theorem process_urls_length (inputs : List (Except PyErr RawData)) :
    ∀ db : DB, (process_urls db inputs).1.length = inputs.length := by
  induction inputs with
  | nil => intro db; simp [process_urls]
  | cons i rest ih => intro db; simp [process_urls, ih]

/-- A pass splits: the suffix of the URL list is processed from the state
the prefix left behind, whatever happened during the prefix. -/
theorem process_urls_append (xs : List (Except PyErr RawData)) :
    ∀ (db : DB) (ys : List (Except PyErr RawData)),
      process_urls db (xs ++ ys) =
        ((process_urls db xs).1 ++ (process_urls (process_urls db xs).2.2 ys).1,
         (process_urls db xs).2.1 ++ (process_urls (process_urls db xs).2.2 ys).2.1,
         (process_urls (process_urls db xs).2.2 ys).2.2) := by
  induction xs with
  | nil => intro db ys; simp [process_urls]
  | cons x xs ih => intro db ys; simp [process_urls, ih, List.append_assoc]

/-! ## Claims -/

/-- C1: the claim says `read_sales_info` returns the persisted record whose
primary key equals the given identity, and `None` exactly when that
identity has no record.  False: the active query ignores the identity
argument and returns the first joined row.  At this store (one property
"5" with its sales row) a lookup of the unseen identity "7" returns the
record for "5" instead of `None`. -/
theorem read_sales_info_ignores_identity :
    read_sales_info
      { properties := [{ id := "5" }],
        sales := [{ id := "5", iznos_najvise_ponude := none, status_nadmetanja := none,
                    broj_uplatitelja := none, data_hash := "h", json_data := jsonDumps [] }] }
      "7" =
    Except.ok (some
      { id := "5", iznos_najvise_ponude := none, status_nadmetanja := none,
        broj_uplatitelja := none, data_hash := "h", json_data := [] }) := by
  rfl

/-- C2: the claim says a record with an identity absent from the store
leads to a new-entry notification, a persisted record, and a successful
lookup.  False: on the empty store, `read_sales_info` raises
AttributeError (it dereferences the `None` result of the unfiltered
query), the exception is caught by the per-URL handler, and the pass ends
with no notification and no persisted record. -/
theorem new_entity_pass_crashes :
    process_urls { properties := [], sales := [] }
      [Except.ok [("ID nadmetanja", "X1"), ("Status", "OPEN")]] =
    ([Outcome.errorCaught PyErr.attributeError], [],
     { properties := [], sales := [] }) := by
  rfl

/-- C5: a raw record lacking the "ID nadmetanja" field is skipped before
any persistence attempt: the entity yields the missing-identity outcome
and warning, the store is not mutated, and the remaining URLs are
processed from the unchanged store. -/
theorem missing_identity_skips_before_persistence (db : DB) (data : RawData)
    (rest : List (Except PyErr RawData))
    (h : lookupKey data "ID nadmetanja" = none) :
    process_urls db (Except.ok data :: rest) =
      (Outcome.skippedNoId :: (process_urls db rest).1,
       Notification.noIdFound :: (process_urls db rest).2.1,
       (process_urls db rest).2.2) := by
  simp [process_urls, processOne, h]

/-- C5 witness: a concrete record without the identity field, followed by
one more URL, is skipped and the pass continues on the same store. -/
theorem missing_identity_skips_before_persistence_witness :
    lookupKey [("Status", "OPEN")] "ID nadmetanja" = none ∧
    process_urls { properties := [], sales := [] }
        (Except.ok [("Status", "OPEN")] :: [Except.error PyErr.requestError]) =
      (Outcome.skippedNoId ::
         (process_urls { properties := [], sales := [] } [Except.error PyErr.requestError]).1,
       Notification.noIdFound ::
         (process_urls { properties := [], sales := [] } [Except.error PyErr.requestError]).2.1,
       (process_urls { properties := [], sales := [] } [Except.error PyErr.requestError]).2.2) :=
  ⟨by decide,
   missing_identity_skips_before_persistence { properties := [], sales := [] }
     [("Status", "OPEN")] [Except.error PyErr.requestError] (by decide)⟩

/-- C6: a failure of one entity does not abort the pass: every URL yields an
outcome, and the URLs after any prefix are still processed (and can still
notify), starting from whatever store state the prefix left. -/
theorem entity_failure_does_not_abort_pass (db : DB)
    (xs ys : List (Except PyErr RawData)) :
    (process_urls db (xs ++ ys)).1.length = xs.length + ys.length ∧
    process_urls db (xs ++ ys) =
      ((process_urls db xs).1 ++ (process_urls (process_urls db xs).2.2 ys).1,
       (process_urls db xs).2.1 ++ (process_urls (process_urls db xs).2.2 ys).2.1,
       (process_urls (process_urls db xs).2.2 ys).2.2) :=
  ⟨by rw [process_urls_length]; simp, process_urls_append xs db ys⟩

/-- C7: applying `write_sales_info` twice with identical arguments leaves
the committed store in the same state as applying it once.  (This holds
degenerately: after a successful first write the existence check of the
second write still consults the `properties` table, finds nothing, re-inserts the
same primary key, fails at commit and rolls back; every other case fails
identically both times without mutating the store.) -/
theorem upsert_twice_same_state (db : DB) (data : RawData) :
    write_state (write_state db data) data = write_state db data := by
  cases h : lookupKey data "ID nadmetanja" with
  | none => simp [write_state, write_sales_info, h]
  | some idv =>
    by_cases hp : db.properties.any (fun n => n.id = idv) = true
    · simp [write_state, write_sales_info, h, hp]
    · by_cases hs : db.sales.any (fun r => r.id = idv) = true
      · simp [write_state, write_sales_info, commit_session, h, hp, hs]
      · simp [write_state, write_sales_info, commit_session, h, hp, hs]

/-- C8: two raw records that are equal as key-value mappings and differ
only in field insertion order — a permutation of the same pairs, with
distinct keys — produce the same `hash_data` digest. -/
theorem fingerprint_insertion_order_independent (d1 d2 : RawData)
    (hp : d1.Perm d2) (hnd : nodupKeys d1) :
    hash_data d1 = hash_data d2 := by
  unfold hash_data jsonDumpsSorted
  rw [sortPairs_eq_of_perm d1 d2 hp hnd]

/-- C8 witness: the two-field record hashed in either insertion order
gives the same digest. -/
theorem fingerprint_insertion_order_independent_witness :
    ([("a", "1"), ("b", "2")] : RawData).Perm [("b", "2"), ("a", "1")] ∧
    nodupKeys [("a", "1"), ("b", "2")] ∧
    hash_data [("a", "1"), ("b", "2")] = hash_data [("b", "2"), ("a", "1")] :=
  ⟨List.Perm.swap ("b", "2") ("a", "1") [], by decide,
   fingerprint_insertion_order_independent [("a", "1"), ("b", "2")] [("b", "2"), ("a", "1")]
     (List.Perm.swap ("b", "2") ("a", "1") []) (by decide)⟩

/-- C9: every successful `write_sales_info` preserves the coherence
invariant: the `data_hash` of each stored row equals `hash_data` of the mapping
deserialized from its `json_data` (the two columns are written together
from the same record and are never stale relative to each other). -/
theorem stored_hash_matches_stored_record (db db2 : DB) (data : RawData)
    (hdb : ∀ r ∈ db.sales, rowCoherent r)
    (hw : write_sales_info db data = Except.ok db2) :
    ∀ r ∈ db2.sales, rowCoherent r := by
  simp only [write_sales_info] at hw
  split at hw
  · exact absurd hw (by simp)
  · split at hw
    · exact absurd hw (by simp)
    · simp only [commit_session] at hw
      split at hw
      · exact absurd hw (by simp)
      · injection hw with hw
        subst hw
        intro r hr
        rcases List.mem_append.mp hr with h1 | h2
        · exact hdb r h1
        · rw [List.mem_singleton] at h2
          subst h2
          exact ⟨data, jsonLoads_jsonDumps data, rfl⟩

/-- C9 witness: writing a concrete record into the empty store succeeds
and the resulting store satisfies the coherence invariant. -/
theorem stored_hash_matches_stored_record_witness :
    (∀ r ∈ (DB.mk [] []).sales, rowCoherent r) ∧
    write_sales_info (DB.mk [] []) c9Data = Except.ok (DB.mk [] [c9Row]) ∧
    ∀ r ∈ (DB.mk [] [c9Row]).sales, rowCoherent r :=
  ⟨fun r hr => absurd hr (List.not_mem_nil r), rfl,
   stored_hash_matches_stored_record (DB.mk [] []) (DB.mk [] [c9Row]) c9Data
     (fun r hr => absurd hr (List.not_mem_nil r)) rfl⟩

/-- C3 counterexample: the claim says no change/new notification is
dispatched for a persistence write that subsequently fails.  At this
concrete state the pass dispatches the change notification first, then
the write fails at commit (duplicate primary key) — so a notification was
dispatched for a failed write.  (The rollback half of the claim does
hold: the resulting state is the pre-write state and the error
propagates.) -/
theorem notification_dispatched_for_failed_write :
    compare_and_notify_sales c3DB c3New =
      ([Notification.changesDetected "X1" [] c3New], c3DB, some PyErr.integrityError) := by
  decide

/-- C3 amended: when the store comparison finds a differing fingerprint
and the write fails, the failure rolls the state back to the pre-write
state and propagates the error — but the change notification has already
been dispatched before the write. -/
theorem write_failure_rolls_back_after_notify (db : DB) (new_data : RawData)
    (idv : String) (ex : ReadRecord) (e : PyErr)
    (h1 : lookupKey new_data "ID nadmetanja" = some idv)
    (h2 : read_sales_info db idv = Except.ok (some ex))
    (h3 : ex.data_hash ≠ hash_data new_data)
    (h4 : write_sales_info db new_data = Except.error e) :
    compare_and_notify_sales db new_data =
      ([Notification.changesDetected idv ex.json_data new_data], db, some e) := by
  simp [compare_and_notify_sales, h1, h2, h3, h4]

/-- C3 witness: the amended statement at the concrete C3 state. -/
theorem write_failure_rolls_back_after_notify_witness :
    lookupKey c3New "ID nadmetanja" = some "X1" ∧
    read_sales_info c3DB "X1" = Except.ok (some c3Ex) ∧
    c3Ex.data_hash ≠ hash_data c3New ∧
    write_sales_info c3DB c3New = Except.error PyErr.integrityError ∧
    compare_and_notify_sales c3DB c3New =
      ([Notification.changesDetected "X1" c3Ex.json_data c3New], c3DB,
       some PyErr.integrityError) :=
  ⟨by decide, by decide, by decide, by decide,
   write_failure_rolls_back_after_notify c3DB c3New "X1" c3Ex PyErr.integrityError
     (by decide) (by decide) (by decide) (by decide)⟩

/-- C4 counterexample: the claim says an entity whose stored fingerprint
equals the hash of the newly observed record produces no notification and
leaves the store untouched.  At this state the fingerprint stored for
"X2" equals the hash of the new record, yet the pass dispatches a change
notification, because the comparison reads the first joined row (entity
"A") instead of the row of "X2".  (The store is left unchanged only because
the follow-up write also fails.) -/
theorem unchanged_fingerprint_still_notifies :
    c4RowX2.data_hash = hash_data c4New ∧
    compare_and_notify_sales c4DB c4New =
      ([Notification.changesDetected "X2" [] c4New], c4DB, some PyErr.integrityError) :=
  ⟨rfl, by decide⟩

/-- C10 counterexample: the claim says that, for input lacking the status
key, updating an existing record sets `status_nadmetanja` to "UNKNOWN".
At this state (the entity exists in both tables) the update branch
instead raises AttributeError — it fetched the record from the
`properties` table, whose class has none of the sales attributes — and
the store keeps the unset status. -/
theorem update_branch_crashes_before_setting_status :
    lookupKey c10Data "status_nadmetanja" = none ∧
    write_sales_info c10DB c10Data = Except.error PyErr.attributeError ∧
    write_state c10DB c10Data = c10DB :=
  ⟨by decide, by decide, by decide⟩

/-- C10 amended: for input lacking the status key, creating a new record
leaves `status_nadmetanja` unset (`none`); the update branch, which would
pass "UNKNOWN" as the status default, never sets any field — it fails
with AttributeError because the existence check loads the record from the
`properties` table. -/
theorem upsert_status_defaults (db : DB) (data : RawData) (idv : String)
    (h1 : lookupKey data "ID nadmetanja" = some idv)
    (h2 : lookupKey data "status_nadmetanja" = none) :
    (db.properties.any (fun n => n.id = idv) = true →
      write_sales_info db data = Except.error PyErr.attributeError) ∧
    (db.properties.any (fun n => n.id = idv) = false →
      db.sales.any (fun r => r.id = idv) = false →
      write_sales_info db data =
        Except.ok { db with sales := db.sales ++
          [{ id := idv,
             iznos_najvise_ponude := lookupKey data "iznos_najvise_ponude",
             status_nadmetanja := none,
             broj_uplatitelja := lookupKey data "broj_uplatitelja",
             data_hash := hash_data data,
             json_data := jsonDumps data }] }) := by
  constructor
  · intro hp
    simp [write_sales_info, h1, hp]
  · intro hp hs
    simp [write_sales_info, commit_session, h1, hp, hs]

/-- C10 witness: the amended statement at the concrete C10 state. -/
theorem upsert_status_defaults_witness :
    lookupKey c10Data "ID nadmetanja" = some "X1" ∧
    lookupKey c10Data "status_nadmetanja" = none ∧
    ((c10DB.properties.any (fun n => n.id = "X1") = true →
      write_sales_info c10DB c10Data = Except.error PyErr.attributeError) ∧
     (c10DB.properties.any (fun n => n.id = "X1") = false →
      c10DB.sales.any (fun r => r.id = "X1") = false →
      write_sales_info c10DB c10Data =
        Except.ok { c10DB with sales := c10DB.sales ++
          [{ id := "X1",
             iznos_najvise_ponude := lookupKey c10Data "iznos_najvise_ponude",
             status_nadmetanja := none,
             broj_uplatitelja := lookupKey c10Data "broj_uplatitelja",
             data_hash := hash_data c10Data,
             json_data := jsonDumps c10Data }] })) :=
  ⟨by decide, by decide,
   upsert_status_defaults c10DB c10Data "X1" (by decide) (by decide)⟩
